import Mathlib

/-!
Verification of the email-authentication record analyzer
(`src/components/DNSLookup.tsx`).

The development is a shallow embedding of the analyzer: every definition
below is translated from the TypeScript source.  JavaScript strings become
`String` (reasoned about through their `List Char` data), JavaScript
regular-expression operations become explicit scanners over `List Char`
with the same left-to-right, non-overlapping match semantics, `null` /
`undefined` become `Option`, and JavaScript truthiness on nullable strings
is modelled by `jsTruthyStr`.  The DNS-over-HTTPS resolver is modelled by
an oracle `Oracle : String → String → List DNSRecord` mapping a query
(name, record type) to its answer set; the component issues all lookups
through it.  React component state (`domain`, `loading`, `analysis`,
`error`, `requestId`) is modelled by `UIState`; an invocation of
`analyzeDomain` closes over the state of the render that created it
(`closure`) while its `set…` calls update the live state, which
`runAnalyzeDomain` models by explicit state passing.
-/

/-- The character class of the JavaScript `\s` regex escape and of
`String.prototype.trim`: ASCII whitespace plus the fixed Unicode space
characters. -/
def isJsWs (c : Char) : Bool :=
  c = ' ' || c = '\t' || c = '\n' || c = '\x0b' || c = '\x0c' || c = '\r' ||
  c = ' ' || c = ' ' || (0x2000 ≤ c.toNat && c.toNat ≤ 0x200A) ||
  c = ' ' || c = ' ' || c = ' ' || c = ' ' || c = '　' || c = '﻿'

/-- JavaScript `String.prototype.trim`: drop leading and trailing whitespace. -/
def jsTrim (s : String) : String :=
  String.mk (((s.data.dropWhile isJsWs).reverse.dropWhile isJsWs).reverse)

/-- JavaScript `String.prototype.toLowerCase`, restricted to the ASCII
letters that the analyzer's inputs use. -/
def jsToLower (s : String) : String :=
  String.mk (s.data.map Char.toLower)

/-- JavaScript `String.prototype.startsWith`. -/
def jsStartsWith (s pat : String) : Bool :=
  pat.data.isPrefixOf s.data

/-- JavaScript `String.prototype.includes`: `pat` occurs as a contiguous
substring of `s`. -/
def jsIncludes (s pat : String) : Bool :=
  s.data.tails.any (fun t => pat.data.isPrefixOf t)

/-- JavaScript truthiness of a nullable string: `null` and the empty
string are falsy, every other string is truthy. -/
def jsTruthyStr (o : Option String) : Bool :=
  match o with
  | some s => !s.data.isEmpty
  | none => false

/-- `data.replace(/^"|"$/g, '')`: remove one leading and one trailing
double quote, each independently of the other. -/
def stripQuotes (s : String) : String :=
  let s1 := if "\"".data.isPrefixOf s.data then String.mk (s.data.drop 1) else s
  if s1.data.getLast? = some '"' then String.mk s1.data.dropLast else s1

/-- `data.replace(/\.$/, '')`: remove one trailing dot (non-global regex,
so at most one removal). -/
def stripTrailingDot (s : String) : String :=
  if s.data.getLast? = some '.' then String.mk s.data.dropLast else s

/-- `domain.replace(/\/$/, '')`: remove one trailing slash. -/
def stripTrailingSlash (s : String) : String :=
  if s.data.getLast? = some '/' then String.mk s.data.dropLast else s

/-- `domain.replace(/^https?:\/\//, '')`: remove one leading URL scheme. -/
def stripScheme (s : String) : String :=
  if "https://".data.isPrefixOf s.data then String.mk (s.data.drop 8)
  else if "http://".data.isPrefixOf s.data then String.mk (s.data.drop 7)
  else s

/-- `domain.trim().toLowerCase().replace(/^https?:\/\//, '').replace(/\/$/, '')`
from `analyzeDomain`. -/
def normalizeDomain (domain : String) : String :=
  stripTrailingSlash (stripScheme (jsToLower (jsTrim domain)))

/-- Drop a literal pattern from the front of a character list, the way a
regex consumes a literal: `some rest` on success, `none` on mismatch. -/
def dropLit : List Char → List Char → Option (List Char)
  | [], l => some l
  | _ :: _, [] => none
  | p :: ps, c :: cs => if p = c then dropLit ps cs else none

/-- Consume `\s+` (one or more whitespace characters, greedily). -/
def dropWs1 (l : List Char) : Option (List Char) :=
  match l with
  | c :: rest => if isJsWs c then some (rest.dropWhile isJsWs) else none
  | [] => none

/-- One of the four SPF `all` qualifier characters `[~\-?+]`. -/
def isQualChar (c : Char) : Bool :=
  c = '~' || c = '-' || c = '?' || c = '+'

/-- Does the regex `[~\-?+]all` match at the head of this list? -/
def qualMatchHere : List Char → Bool
  | c :: rest => isQualChar c && "all".data.isPrefixOf rest
  | [] => false

/-- `/[~\-?+]all/.test(spf)`: some position of `spf` starts a qualifier
match. -/
def hasTerminator (s : String) : Bool :=
  s.data.tails.any qualMatchHere

/-- Leftmost match of `/([~\-?+]all)/`, as returned by
`spf.match(/([~\-?+]all)/)?.[1]`. -/
def firstTerminatorAux : List Char → Option String
  | [] => none
  | c :: rest =>
    if isQualChar c && "all".data.isPrefixOf rest then some (String.mk (c :: "all".data))
    else firstTerminatorAux rest

def firstTerminator (s : String) : Option String :=
  firstTerminatorAux s.data

/-- `!!spf.match(/^v=spf1\s+include:spfa\.mailendo\.com\s+[~\-?+]all$/)`:
the record is exactly the Moosend include plus a terminator. -/
def isMoosendOnlyAux (l : List Char) : Bool :=
  match dropLit "v=spf1".data l with
  | some r1 =>
    match dropWs1 r1 with
    | some r2 =>
      match dropLit "include:spfa.mailendo.com".data r2 with
      | some r3 =>
        match dropWs1 r3 with
        | some r4 =>
          match r4 with
          | c :: rest => isQualChar c && (rest == "all".data)
          | [] => false
        | none => false
      | none => false
    | none => false
  | none => false

def isMoosendOnly (spf : String) : Bool :=
  isMoosendOnlyAux spf.data

/-- One attempted match of the token regexes `include:[^\\s]+` /
`exists:[^\\s]+` at the current position: the literal `pat` followed by a
non-empty greedy run of non-whitespace characters.  Returns the total
number of characters the match consumes. -/
def tokenMatchLen (pat : List Char) (l : List Char) : Option Nat :=
  match dropLit pat l with
  | some r =>
    let tok := r.takeWhile (fun ch => !isJsWs ch)
    if tok.isEmpty then none else some (pat.length + tok.length)
  | none => none

/-- One attempted match of the mechanism regexes `\\sX(?::|[\\s~\\-?+]|$)`
at the current position: a whitespace character, the literal `X`, then a
colon, a delimiter character, or the end of the string.  Returns the
number of characters consumed. -/
def mechMatchLen (lit : List Char) (l : List Char) : Option Nat :=
  match l with
  | c :: rest =>
    if isJsWs c then
      match dropLit lit rest with
      | some r2 =>
        match r2 with
        | [] => some (1 + lit.length)
        | d :: _ =>
          if d = ':' || isJsWs d || d = '~' || d = '-' || d = '?' || d = '+' then
            some (1 + lit.length + 1)
          else none
      | none => none
    else none
  | [] => none

/-- `(spf.match(re) || []).length` for a global regex: scan left to right;
a successful match is consumed whole (its remaining `k - 1` characters are
skipped), a failed attempt advances one character.  Matches never overlap,
exactly as with a JavaScript global regex. -/
def countMatchesAux (step : List Char → Option Nat) : List Char → Nat → Nat
  | [], _ => 0
  | _ :: rest, skip + 1 => countMatchesAux step rest skip
  | c :: rest, 0 =>
    match step (c :: rest) with
    | some k => 1 + countMatchesAux step rest (k - 1)
    | none => countMatchesAux step rest 0

/-- `(spf.match(/include:[^\\s]+/g) || []).length`. -/
def includeCount (spf : String) : Nat :=
  countMatchesAux (tokenMatchLen "include:".data) spf.data 0

/-- `(spf.match(/\\sa(?::|[\\s~\\-?+]|$)/g) || []).length`. -/
def aCount (spf : String) : Nat :=
  countMatchesAux (mechMatchLen "a".data) spf.data 0

/-- `(spf.match(/\\smx(?::|[\\s~\\-?+]|$)/g) || []).length`. -/
def mxCount (spf : String) : Nat :=
  countMatchesAux (mechMatchLen "mx".data) spf.data 0

/-- `(spf.match(/\\sptr(?::|[\\s~\\-?+]|$)/g) || []).length`. -/
def ptrCount (spf : String) : Nat :=
  countMatchesAux (mechMatchLen "ptr".data) spf.data 0

/-- `(spf.match(/exists:[^\\s]+/g) || []).length`. -/
def existsCount (spf : String) : Nat :=
  countMatchesAux (tokenMatchLen "exists:".data) spf.data 0

/-- `totalLookups = includeCount + aCount + mxCount + ptrCount + existsCount`. -/
def totalLookups (spf : String) : Nat :=
  includeCount spf + aCount spf + mxCount spf + ptrCount spf + existsCount spf

/-- First match of `/p=([^;]+)/`: scan for the literal `p=`, then capture
one or more characters up to (excluding) the next semicolon.  If the
capture would be empty the match fails at this position and the scan
resumes one character further — at the `=`, where no new match can start,
so the recursion may resume directly after it. -/
def extractPolicyAux : List Char → Option String
  | [] => none
  | 'p' :: '=' :: rest =>
    let tok := rest.takeWhile (fun ch => ch != ';')
    if tok.isEmpty then extractPolicyAux rest else some (String.mk tok)
  | _ :: rest => extractPolicyAux rest

def extractPolicy (s : String) : Option String :=
  extractPolicyAux s.data

/-- `currentSpf.replace(/~all|-all|\?all|\+all/g, 'include:spfa.mailendo.com $&')`:
insert the Moosend include before every qualifier match. -/
def addMoosendAux : List Char → Nat → List Char
  | [], _ => []
  | c :: rest, skip + 1 => c :: addMoosendAux rest skip
  | c :: rest, 0 =>
    if isQualChar c && "all".data.isPrefixOf rest then
      "include:spfa.mailendo.com ".data ++ (c :: addMoosendAux rest 3)
    else c :: addMoosendAux rest 0

def addMoosendToSpf (s : String) : String :=
  String.mk (addMoosendAux s.data 0)

/-- A DNS answer as returned by the DNS-over-HTTPS resolver
(`interface DNSRecord`); `type` is the numeric DNS record type
(16 = TXT, 5 = CNAME). -/
structure DNSRecord where
  name : String
  type : Nat
  TTL : Nat
  data : String
deriving DecidableEq

/-- The resolver, as observed through `lookupDNS`: a map from
(query name, record type string) to the returned answer list.  `lookupDNS`
returns `[]` on any transport error or non-zero status, so total functions
into answer lists model every reachable behavior. -/
def Oracle : Type := String → String → List DNSRecord

def emptyOracle : Oracle := fun _ _ => []

/-- One entry of `analysis.spf.analysis` (the per-record classification). -/
structure SpfRecordInfo where
  record : String
  index : Nat
  hasMoosend : Bool
  isMoosendOnly : Bool
deriving DecidableEq

/-- `analysis.spf` of `AnalysisResult`.  The source field `exists` is a
Lean keyword and is rendered `existsb`. -/
structure SpfResult where
  existsb : Bool
  records : List String
  analysis : List SpfRecordInfo
  hasMoosend : Bool
  hasMultiple : Bool
  errors : List String
  warnings : List String
deriving DecidableEq

/-- `spfRecords.map(r => r.data.replace(/^"|"$/g, '')).filter(data => data.startsWith('v=spf1'))`. -/
def spfMatches (answers : List DNSRecord) : List String :=
  (answers.map (fun r => stripQuotes r.data)).filter (fun d => jsStartsWith d "v=spf1")

def mkSpfInfo (spfResults : List String) : List SpfRecordInfo :=
  spfResults.enum.map (fun p =>
    { record := p.2
      index := p.1 + 1
      hasMoosend := jsIncludes p.2 "include:spfa.mailendo.com"
      isMoosendOnly := isMoosendOnly p.2 })

def multipleSpfErrorText (n : Nat) : String :=
  "Multiple SPF records detected (" ++ toString n ++ " records). Only one SPF record is allowed per domain. This invalidates all SPF records."

def missingTerminatorWarningText : String :=
  "SPF record is missing a terminator (like ~all or -all). We recommend adding \"~all\" at the end for soft fail protection."

/-- The terminator warning naming the qualifier that was actually found
(`${currentTerminator}`; JavaScript would render a failed match as the
string `undefined`). -/
def usesTerminatorWarningText (q : String) : String :=
  "SPF uses \"" ++ q ++ "\" terminator. While this works, we recommend \"~all\" as it\x27s safer for most use cases."

/-- The terminator check of `analyzeDomain`, run only when exactly one SPF
record was found (the caller guards on `spfResults.length === 1`). -/
def terminatorWarningList (spf : String) : List String :=
  if !hasTerminator spf then [missingTerminatorWarningText]
  else if !jsIncludes spf "~all" then
    [usesTerminatorWarningText ((firstTerminator spf).getD "undefined")]
  else []

def highLookupWarningText (spf : String) : String :=
  "High DNS lookup count detected (" ++ toString (totalLookups spf) ++ " total lookups: " ++
  toString (includeCount spf) ++ " includes, " ++ toString (aCount spf) ++ " a, " ++
  toString (mxCount spf) ++ " mx" ++
  (if ptrCount spf > 0 then ", " ++ toString (ptrCount spf) ++ " ptr" else "") ++
  (if existsCount spf > 0 then ", " ++ toString (existsCount spf) ++ " exists" else "") ++
  "). SPF has a 10 lookup limit. Some includes may contain nested lookups, so this could go over. If the customer needs to add more services, consider SPF flattening."

def moderateLookupWarningText (spf : String) : String :=
  "Moderate DNS lookup count (" ++ toString (totalLookups spf) ++ " lookups). Still within the limit of 10, but keep in mind that some includes may have nested lookups. Monitor if adding more services."

/-- The lookup-budget check of `analyzeDomain`, run only when exactly one
SPF record was found. -/
def lookupWarningList (spf : String) : List String :=
  if totalLookups spf > 8 then [highLookupWarningText spf]
  else if totalLookups spf > 5 then [moderateLookupWarningText spf]
  else []

/-- The SPF block of `analyzeDomain` (lines 104–165 of the source),
as a function of the apex TXT answer set. -/
def analyzeSpf (answers : List DNSRecord) : SpfResult :=
  let spfResults := spfMatches answers
  let spfAnalysis := mkSpfInfo spfResults
  { existsb := decide (spfResults.length > 0)
    records := spfResults
    analysis := spfAnalysis
    hasMoosend := spfAnalysis.any (fun s => s.hasMoosend)
    hasMultiple := decide (spfResults.length > 1)
    errors := if spfResults.length > 1 then [multipleSpfErrorText spfResults.length] else []
    warnings :=
      (match spfResults with
       | [spf] => terminatorWarningList spf
       | _ => []) ++
      (match spfResults with
       | [spf] => lookupWarningList spf
       | _ => []) }

/-- `analysis.dkim` of `AnalysisResult` (`exists` rendered `existsb`). -/
structure DkimResult where
  existsb : Bool
  record : Option String
  isCNAME : Bool
  cnameTarget : Option String
  isDuplicated : Bool
  duplicatedLocation : Option String
  errors : List String
deriving DecidableEq

/-- The TXT-record probe shared by the direct check and the CNAME-target
check: if the answer set is non-empty, take the first type-16 answer,
unwrap its quotes and accept it when it contains `v=DKIM1` or `p=`. -/
def dkimTxtData (records : List DNSRecord) : Option String :=
  if records.length > 0 then
    match records.filter (fun r => r.type == 16) with
    | t :: _ =>
      let recordData := stripQuotes t.data
      if jsIncludes recordData "v=DKIM1" || jsIncludes recordData "p=" then some recordData
      else none
    | [] => none
  else none

/-- First CNAME (type 5) answer of the selector query, with the trailing
dot removed; consulted only when no direct TXT record matched. -/
def cnameOf (records : List DNSRecord) : Option String :=
  match records.filter (fun r => r.type == 5) with
  | c :: _ => some (stripTrailingDot c.data)
  | [] => none

def isThirdParty (ct : String) : Bool :=
  jsIncludes ct "sendgrid" || jsIncludes ct "mailgun" || jsIncludes ct "mailchimp" ||
  jsIncludes ct "sparkpost" || jsIncludes ct "amazonses"

def providerName (ct : String) : String :=
  if jsIncludes ct "sendgrid" then "SendGrid"
  else if jsIncludes ct "mailgun" then "Mailgun"
  else if jsIncludes ct "mailchimp" then "Mailchimp"
  else if jsIncludes ct "sparkpost" then "SparkPost"
  else if jsIncludes ct "amazonses" then "Amazon SES"
  else "another provider"

def dkimThirdPartyErrorText (provider ct : String) : String :=
  "DKIM selector \"ms._domainkey\" is currently configured for " ++ provider ++ " (CNAME: " ++ ct ++ "). To use Moosend, the customer needs to update this DKIM record with the values from their Moosend dashboard."

def dkimCnameNotConfiguredErrorText (ct : String) : String :=
  "No Moosend DKIM record found. The selector \"ms._domainkey\" has a CNAME to " ++ ct ++ ", but it doesn\x27t appear to be configured correctly."

def dkimDuplicatedErrorText (duplicatedDomain : String) : String :=
  "DKIM record found at wrong location: " ++ duplicatedDomain ++ ". The DNS manager auto-appended the domain. Delete the record and recreate using only \"ms._domainkey\" as the host value."

def dkimNotFoundErrorText : String :=
  "No DKIM record found for selector \"ms._domainkey\". If you recently added it, wait 5-30 minutes for DNS propagation."

/-- The DKIM block of `analyzeDomain` (lines 167–263 of the source).
Returns the `analysis.dkim` value together with the list of extra lookups
the block issued beyond the selector query itself (the CNAME-target
resolution and the duplicated-name probe), in order.  The `try`/`catch`
around the CNAME-target lookup is inert here because the oracle is total,
matching the source where `lookupDNS` itself never throws. -/
def analyzeDkim (cleanDomain : String) (oracle : Oracle) : DkimResult × List (String × String) :=
  let dkimDomain := "ms._domainkey." ++ cleanDomain
  let dkimRecords := oracle dkimDomain "TXT"
  let direct := dkimTxtData dkimRecords
  let cname := if jsTruthyStr direct then none else cnameOf dkimRecords
  let isCNAME := cname.isSome
  let resolved : Option String × List (String × String) :=
    match cname with
    | some ct =>
      if isThirdParty ct then (none, [])
      else (dkimTxtData (oracle ct "TXT"), [(ct, "TXT")])
    | none => (direct, [])
  let dkimData := resolved.1
  let tailPart : Bool × Option String × List String × List (String × String) :=
    if jsTruthyStr dkimData then (false, none, [], [])
    else if isCNAME && jsTruthyStr cname then
      let ct := cname.getD ""
      if isThirdParty ct then (false, none, [dkimThirdPartyErrorText (providerName ct) ct], [])
      else (false, none, [dkimCnameNotConfiguredErrorText ct], [])
    else
      let duplicatedDomain := "ms._domainkey." ++ cleanDomain ++ "." ++ cleanDomain
      let duplicatedRecords := oracle duplicatedDomain "TXT"
      if duplicatedRecords.length > 0 then
        (true, some duplicatedDomain, [dkimDuplicatedErrorText duplicatedDomain],
         [(duplicatedDomain, "TXT")])
      else
        (false, none, [dkimNotFoundErrorText], [(duplicatedDomain, "TXT")])
  ({ existsb := jsTruthyStr dkimData
     record := dkimData
     isCNAME := isCNAME
     cnameTarget := cname
     isDuplicated := tailPart.1
     duplicatedLocation := tailPart.2.1
     errors := tailPart.2.2.1 },
   [(dkimDomain, "TXT")] ++ resolved.2 ++ tailPart.2.2.2)

/-- `analysis.dmarc` of `AnalysisResult` (`exists` rendered `existsb`). -/
structure DmarcResult where
  existsb : Bool
  record : Option String
  records : List String
  hasMultiple : Bool
  policy : Option String
  errors : List String
deriving DecidableEq

/-- `dmarcRecords.map(r => r.data.replace(/^"|"$/g, '')).filter(data => data.startsWith('v=DMARC1'))`. -/
def dmarcMatches (answers : List DNSRecord) : List String :=
  (answers.map (fun r => stripQuotes r.data)).filter (fun d => jsStartsWith d "v=DMARC1")

def multipleDmarcErrorText (n : Nat) : String :=
  "Multiple DMARC records detected (" ++ toString n ++ " records). Only one DMARC record is allowed per domain. This invalidates all DMARC records."

def noDmarcErrorText : String :=
  "No DMARC record found. DMARC is recommended for complete email authentication."

/-- The DMARC block of `analyzeDomain` (lines 266–286 of the source), as a
function of the `_dmarc` TXT answer set. -/
def analyzeDmarc (answers : List DNSRecord) : DmarcResult :=
  let dmarcResults := dmarcMatches answers
  let hasMultipleDMARC := decide (dmarcResults.length > 1)
  let dmarcData := dmarcResults.head?
  let dmarcPolicy :=
    if jsTruthyStr dmarcData && !hasMultipleDMARC then extractPolicy (dmarcData.getD "")
    else none
  let dmarcErrors :=
    (if hasMultipleDMARC then [multipleDmarcErrorText dmarcResults.length] else []) ++
    (if !jsTruthyStr dmarcData then [noDmarcErrorText] else [])
  { existsb := decide (dmarcResults.length > 0)
    record := dmarcData
    records := dmarcResults
    hasMultiple := hasMultipleDMARC
    policy := dmarcPolicy
    errors := dmarcErrors }

/-- `interface AnalysisResult` of the source: the three sub-analyses. -/
structure AnalysisResult where
  spf : SpfResult
  dkim : DkimResult
  dmarc : DmarcResult
deriving DecidableEq

/-- The successful body of `analyzeDomain`: the three analyzer blocks over
one normalized domain. -/
def computeAnalysis (cleanDomain : String) (oracle : Oracle) : AnalysisResult :=
  { spf := analyzeSpf (oracle cleanDomain "TXT")
    dkim := (analyzeDkim cleanDomain oracle).1
    dmarc := analyzeDmarc (oracle ("_dmarc." ++ cleanDomain) "TXT") }

/-- Terminal outcome of one `analyzeDomain` invocation: the empty-input
early return (`setError("Please enter a domain name")`), the
concurrent-request early return (`if (loading) return`), or completion
with an `AnalysisResult`. -/
inductive AnalyzeOutcome where
  | invalidInput : AnalyzeOutcome
  | busy : AnalyzeOutcome
  | completed : AnalysisResult → AnalyzeOutcome
deriving DecidableEq

/-- One `analyzeDomain` invocation together with its resolver-lookup
trace, in order: the early returns issue no lookup, a completed run issues
the apex TXT query, the DKIM block's queries, and the `_dmarc` TXT query. -/
def analyzeDomainRun (domain : String) (loading : Bool) (oracle : Oracle) :
    AnalyzeOutcome × List (String × String) :=
  if jsTrim domain = "" then (AnalyzeOutcome.invalidInput, [])
  else if loading then (AnalyzeOutcome.busy, [])
  else
    let cleanDomain := normalizeDomain domain
    (AnalyzeOutcome.completed (computeAnalysis cleanDomain oracle),
     [(cleanDomain, "TXT")] ++ (analyzeDkim cleanDomain oracle).2 ++
     [("_dmarc." ++ cleanDomain, "TXT")])

/-- The React state of the `DNSLookup` component that `analyzeDomain`
reads and writes. -/
structure UIState where
  domain : String
  loading : Bool
  analysis : Option AnalysisResult
  error : Option String
  requestId : Nat
deriving DecidableEq

def initialUIState : UIState :=
  { domain := "", loading := false, analysis := none, error := none, requestId := 0 }

/-- One full `analyzeDomain` invocation on the success path, with React
closure semantics made explicit: `closure` is the component state captured
by the render that created this instance of `analyzeDomain` (so
`closure.domain`, `closure.loading` and — crucially — `closure.requestId`
are the values those identifiers have inside the function body), `now` is
`Date.now()` at invocation start, and `live` is the live component state
that the `set…` calls update.  The commit guards compare
`currentRequestId === requestId`, where `requestId` is the closed-over
value, exactly as in the source. -/
def runAnalyzeDomain (closure : UIState) (now : Nat) (oracle : Oracle) (live : UIState) : UIState :=
  if jsTrim closure.domain = "" then { live with error := some "Please enter a domain name" }
  else if closure.loading then live
  else
    let currentRequestId := now
    let live1 := { live with requestId := currentRequestId, loading := true,
                             error := none, analysis := none }
    let cleanDomain := normalizeDomain closure.domain
    let result := computeAnalysis cleanDomain oracle
    let live2 :=
      if currentRequestId == closure.requestId then { live1 with analysis := some result }
      else live1
    if currentRequestId == closure.requestId then { live2 with loading := false }
    else live2

/-- A fresh session about to analyze `example.com`: the component just
mounted (`requestId = 0`) and the user typed a domain. -/
def freshSession : UIState :=
  { initialUIState with domain := "example.com" }

/-- One line of the multiple-SPF listing in the report
(`analysis.spf.analysis.forEach` at lines 356–365 of the source). -/
def spfInfoLine (s : SpfRecordInfo) : String :=
  "  Record " ++ toString s.index ++ ": " ++ s.record ++ "\n" ++
  (if s.hasMoosend && s.isMoosendOnly then "    └─ Analysis: Moosend Only (likely incomplete)\n"
   else if s.hasMoosend then "    └─ Analysis: Contains Moosend + other services (GOOD)\n"
   else "    └─ Analysis: No Moosend authorization\n")

/-- The `hasMultiple` branch of the report's SPF section. -/
def spfMultipleReport (spf : SpfResult) : String :=
  "\n⚠️ CRITICAL: Multiple SPF records detected (only 1 allowed per domain)\n" ++
  "This invalidates ALL SPF records.\n\n" ++
  "All SPF Records Found:\n" ++
  String.join (spf.analysis.map spfInfoLine) ++
  (match spf.analysis.filter (fun s => s.hasMoosend && !s.isMoosendOnly) with
   | best :: _ =>
     "\n💡 RECOMMENDED ACTION:\n" ++
     "  Keep: SPF Record " ++ toString best.index ++ " (has all services + Moosend)\n" ++
     "  Delete: All other SPF records\n" ++
     "  Reason: This record preserves existing services while adding Moosend authorization\n"
   | [] =>
     "\n💡 RECOMMENDED ACTION:\n" ++
     "  Merge records manually - no single record contains both existing services and Moosend\n")

/-- The single-record branch of the report's SPF section
(`analysis.spf.records[0]` would render as the string `undefined` in
JavaScript if the list were inconsistently empty). -/
def spfSingleReport (spf : SpfResult) : String :=
  "\nCurrent SPF Record:\n" ++
  "  " ++ spf.records.headD "undefined" ++ "\n" ++
  (if spf.hasMoosend then "\nMoosend Authorization: ✓ Authorized (include:spfa.mailendo.com present)\n"
   else
     "\nMoosend Authorization: ❌ NOT authorized (missing include:spfa.mailendo.com)\n" ++
     "Action: Add \"include:spfa.mailendo.com\" to the existing SPF record\n" ++
     "\nRecommended Updated Record:\n  " ++ addMoosendToSpf (spf.records.headD "undefined") ++ "\n")

def bulletLines (xs : List String) : String :=
  String.join (xs.map (fun e => "  • " ++ e ++ "\n"))

/-- The `--- SPF RECORDS ---` section of `generateFullReport`. -/
def spfReportSection (a : AnalysisResult) : String :=
  "--- SPF RECORDS ---\n" ++
  (if a.spf.existsb then
    "Status: " ++ (if a.spf.errors.length > 0 then "❌ Issues Found" else "✓ Found") ++ "\n" ++
    "Records Found: " ++ toString a.spf.records.length ++ "\n" ++
    (if a.spf.hasMultiple then spfMultipleReport a.spf else spfSingleReport a.spf) ++
    (if a.spf.errors.length > 0 then "\nErrors:\n" ++ bulletLines a.spf.errors else "") ++
    (if a.spf.warnings.length > 0 then "\nWarnings:\n" ++ bulletLines a.spf.warnings else "")
  else
    "Status: ❌ Not Found\n" ++
    "Action: Customer needs to add an SPF record with Moosend authorization.\n" ++
    "Recommended value: v=spf1 include:spfa.mailendo.com ~all\n")

/-- The `--- DKIM RECORDS ---` section of `generateFullReport`
(JavaScript renders a `null` record as the string `null`). -/
def dkimReportSection (a : AnalysisResult) (domain : String) : String :=
  "\n--- DKIM RECORDS (Moosend Selector: ms._domainkey) ---\n" ++
  (if a.dkim.existsb then
    "Status: ✓ Found\n" ++
    "Location: ms._domainkey." ++ domain ++ "\n" ++
    (if a.dkim.isCNAME && jsTruthyStr a.dkim.cnameTarget then
      "Configuration: CNAME (points to " ++ a.dkim.cnameTarget.getD "null" ++ ")\n"
     else "") ++
    "DKIM Public Key: " ++ a.dkim.record.getD "null" ++ "\n"
  else if a.dkim.isDuplicated then
    "Status: ❌ Domain Duplication Issue\n" ++
    "Checked ms._domainkey." ++ domain ++ " - No record found\n" ++
    "Tested ms._domainkey." ++ domain ++ "." ++ domain ++ " - Record found\n\n" ++
    "Issue: DNS manager auto-appended the domain name.\n" ++
    "Fix: Edit the DKIM record\x27s host field and change it to just \"ms._domainkey\" (remove the domain portion)\n"
  else
    "Status: ❌ Not Found\n" ++
    "Checked: ms._domainkey." ++ domain ++ "\n" ++
    "Action: Customer needs to add DKIM record from Moosend dashboard.\n" ++
    "Note: DNS propagation can take 5-30 minutes.\n")

/-- One line of the multiple-DMARC listing: per-record policy re-extracted
with `rec.match(/p=([^;]+)/)`, `'unknown'` when absent. -/
def dmarcRecordLine (p : Nat × String) : String :=
  "  Record " ++ toString (p.1 + 1) ++ " (Policy: " ++ ((extractPolicy p.2).getD "unknown") ++
  "): " ++ p.2 ++ "\n"

/-- The `--- DMARC RECORDS ---` section of `generateFullReport`. -/
def dmarcReportSection (a : AnalysisResult) : String :=
  "\n--- DMARC RECORDS ---\n" ++
  (if a.dmarc.hasMultiple then
    "Status: ❌ CRITICAL - Multiple DMARC Records (Invalid Configuration)\n" ++
    "Records Found: " ++ toString a.dmarc.records.length ++ "\n\n" ++
    "Issue: Only ONE DMARC record is allowed per domain. Multiple records invalidate the entire DMARC configuration.\n\n" ++
    "Current DMARC Records:\n" ++
    String.join (a.dmarc.records.enum.map dmarcRecordLine) ++
    "\nAction Required:\n" ++
    "  1. Review both DMARC records above\n" ++
    "  2. Choose which policy best fits customer needs\n" ++
    "  3. Delete ONE of the DMARC records from DNS manager\n" ++
    "  4. Keep only the DMARC record with preferred policy\n" ++
    "Note: We don\x27t recommend a specific record - customer should consult deliverability team if unsure.\n"
  else if a.dmarc.existsb then
    "Status: ✓ Found\n" ++
    (if jsTruthyStr a.dmarc.policy then "Policy: p=" ++ a.dmarc.policy.getD "null" ++ "\n"
     else "") ++
    "Record: " ++ a.dmarc.record.getD "null" ++ "\n"
  else
    "Status: ❌ Not Found (Highly Recommended)\n" ++
    "Note: All major ISPs now require DMARC for senders sending 5,000+ emails.\n" ++
    "Action: Customer should add DMARC for better deliverability and security.\n" ++
    "Recommended starter record:\n" ++
    "  Host: _dmarc\n" ++
    "  Value: v=DMARC1; p=none;\n" ++
    "Note: Start with p=none to monitor. Can make stricter later.\n")

/-- `generateFullReport` (lines 338–469 of the source).  Besides the
`AnalysisResult`, the source reads two further inputs: the `domain` state
variable and `new Date().toLocaleString()`, the wall-clock render time;
both are explicit parameters here. -/
def generateFullReport (a : AnalysisResult) (domain renderedAt : String) : String :=
  "=== EMAIL AUTHENTICATION ANALYSIS ===\n" ++
  ("Domain: " ++ domain ++ "\n") ++
  ("Analyzed: " ++ renderedAt ++ "\n\n") ++
  spfReportSection a ++
  dkimReportSection a domain ++
  dmarcReportSection a ++
  "\n=== END OF REPORT ===\n"

/-- Two conflicting SPF TXT answers at the apex. -/
def spfTwoRecordsInput : List DNSRecord :=
  [{ name := "example.com", type := 16, TTL := 300, data := "\"v=spf1 include:a.com ~all\"" },
   { name := "example.com", type := 16, TTL := 300, data := "\"v=spf1 include:b.com ~all\"" }]

/-- A single SPF TXT answer with the spec's lookup-count example record. -/
def spfLookupExampleInput : List DNSRecord :=
  [{ name := "example.com", type := 16, TTL := 300,
     data := "\"v=spf1 include:a.com include:b.com a mx ~all\"" }]

/-- A single SPF TXT answer ending in `-all` whose six includes exceed the
moderate lookup threshold. -/
def spfDashAllSixIncludesInput : List DNSRecord :=
  [{ name := "example.com", type := 16, TTL := 300,
     data := "\"v=spf1 include:a.com include:b.com include:c.com include:d.com include:e.com include:f.com -all\"" }]

/-- A single SPF TXT answer ending in `-all` within the lookup budget. -/
def spfDashAllSimpleInput : List DNSRecord :=
  [{ name := "example.com", type := 16, TTL := 300, data := "\"v=spf1 include:a.com -all\"" }]

/-- A resolver in which the DKIM selector query returns two TXT answers:
the first without DKIM key data, the second with it. -/
def dkimSecondTxtOracle : Oracle := fun name rtype =>
  if name = "ms._domainkey.example.com" && rtype = "TXT" then
    [{ name := "ms._domainkey.example.com", type := 16, TTL := 300, data := "hello world" },
     { name := "ms._domainkey.example.com", type := 16, TTL := 300, data := "\"v=DKIM1; p=abc\"" }]
  else []

/-- A resolver in which the DKIM selector query returns one direct TXT
answer carrying DKIM key data. -/
def dkimDirectTxtOracle : Oracle := fun name rtype =>
  if name = "ms._domainkey.example.com" && rtype = "TXT" then
    [{ name := "ms._domainkey.example.com", type := 16, TTL := 300, data := "\"v=DKIM1; p=abc\"" }]
  else []

/-- A resolver in which the selector query is empty but the
duplicated-name probe `ms._domainkey.example.com.example.com` answers. -/
def dkimDuplicatedOracle : Oracle := fun name rtype =>
  if name = "ms._domainkey.example.com.example.com" && rtype = "TXT" then
    [{ name := "ms._domainkey.example.com.example.com", type := 16, TTL := 300,
       data := "\"v=DKIM1; p=abc\"" }]
  else []

/-- One DMARC TXT answer with a quarantine policy. -/
def dmarcQuarantineInput : List DNSRecord :=
  [{ name := "_dmarc.example.com", type := 16, TTL := 300,
     data := "\"v=DMARC1; p=quarantine;\"" }]

/-- Two conflicting DMARC TXT answers. -/
def dmarcTwoRecordsInput : List DNSRecord :=
  [{ name := "_dmarc.example.com", type := 16, TTL := 300, data := "\"v=DMARC1; p=none;\"" },
   { name := "_dmarc.example.com", type := 16, TTL := 300, data := "\"v=DMARC1; p=reject;\"" }]

theorem isPrefixOf_eq_true_iff (p : List Char) :
    ∀ l, p.isPrefixOf l = true ↔ ∃ t, l = p ++ t := by
  induction p with
  | nil =>
    intro l
    simp [List.isPrefixOf]
  | cons a as ih =>
    intro l
    cases l with
    | nil =>
      simp [List.isPrefixOf]
    | cons b bs =>
      simp only [List.isPrefixOf, Bool.and_eq_true, beq_iff_eq, ih bs, List.cons_append,
        List.cons.injEq]
      constructor
      · rintro ⟨hab, t, ht⟩
        exact ⟨t, hab.symm, ht⟩
      · rintro ⟨t, hab, ht⟩
        exact ⟨hab.symm, t, ht⟩

theorem jsIncludes_ne_nil (s pat : String) (hp : pat.data ≠ [])
    (h : jsIncludes s pat = true) : s.data ≠ [] := by
  intro h0
  rw [jsIncludes, h0] at h
  simp [List.any_eq_true] at h
  exact hp h

theorem jsIncludes_of_isSuffixOf (s pat : String) (h : pat.data.isSuffixOf s.data = true) :
    jsIncludes s pat = true := by
  rw [List.isSuffixOf, isPrefixOf_eq_true_iff] at h
  obtain ⟨t, ht⟩ := h
  have hs : s.data = t.reverse ++ pat.data := by
    have := congrArg List.reverse ht
    simpa using this
  rw [jsIncludes, List.any_eq_true]
  refine ⟨pat.data, ?_, ?_⟩
  · exact (List.mem_tails pat.data s.data).mpr ⟨t.reverse, hs.symm⟩
  · exact (isPrefixOf_eq_true_iff pat.data pat.data).mpr ⟨[], (List.append_nil _).symm⟩

theorem firstTerminatorAux_some_any (l : List Char) (q : String)
    (h : firstTerminatorAux l = some q) : l.tails.any qualMatchHere = true := by
  induction l with
  | nil => simp [firstTerminatorAux] at h
  | cons c rest ih =>
    rw [firstTerminatorAux] at h
    by_cases hq : (isQualChar c && "all".data.isPrefixOf rest) = true
    · rw [List.tails_cons, List.any_cons]
      simp [qualMatchHere, hq]
    · rw [if_neg hq] at h
      rw [List.tails_cons, List.any_cons, ih h]
      simp

theorem hasTerminator_of_firstTerminator (s q : String) (h : firstTerminator s = some q) :
    hasTerminator s = true :=
  firstTerminatorAux_some_any s.data q h

theorem hasTerminator_of_jsIncludes_tilde (s : String) (h : jsIncludes s "~all" = true) :
    hasTerminator s = true := by
  rw [jsIncludes, List.any_eq_true] at h
  obtain ⟨t, hmem, hpre⟩ := h
  rw [isPrefixOf_eq_true_iff] at hpre
  obtain ⟨u, hu⟩ := hpre
  rw [hasTerminator, List.any_eq_true]
  refine ⟨t, hmem, ?_⟩
  rw [hu]
  show qualMatchHere ('~' :: 'a' :: 'l' :: 'l' :: u) = true
  simp only [qualMatchHere, Bool.and_eq_true]
  constructor
  · decide
  · exact (isPrefixOf_eq_true_iff "all".data _).mpr ⟨u, rfl⟩

theorem filter_ne_nil_base {α : Type} (p : α → Bool) (l : List α) (x : α) (xs : List α)
    (h : l.filter p = x :: xs) : l ≠ [] := by
  intro h0
  rw [h0] at h
  simp at h

/-- Claim C3: for every TXT answer set with two or more SPF matches
(quote-unwrapped strings beginning with `v=spf1`), the SPF analysis sets
`hasMultiple = true`, produces exactly the one multiple-records
consolidation error, and produces no terminator or lookup-count warnings. -/
theorem spf_multiple_records_single_error (answers : List DNSRecord)
    (h : 2 ≤ (spfMatches answers).length) :
    (analyzeSpf answers).hasMultiple = true ∧
    (analyzeSpf answers).errors = [multipleSpfErrorText (spfMatches answers).length] ∧
    (analyzeSpf answers).warnings = [] := by
  rcases hm : spfMatches answers with _ | ⟨a, rest⟩
  · rw [hm] at h
    simp at h
  · rcases rest with _ | ⟨b, t⟩
    · rw [hm] at h
      simp at h
    · refine ⟨?_, ?_, ?_⟩ <;> simp [analyzeSpf, hm]

/-- Witness for C3 at a concrete two-record answer set. -/
theorem spf_multiple_records_single_error_witness :
    2 ≤ (spfMatches spfTwoRecordsInput).length ∧
    (analyzeSpf spfTwoRecordsInput).hasMultiple = true ∧
    (analyzeSpf spfTwoRecordsInput).errors = [multipleSpfErrorText (spfMatches spfTwoRecordsInput).length] ∧
    (analyzeSpf spfTwoRecordsInput).warnings = [] :=
  ⟨by decide, spf_multiple_records_single_error spfTwoRecordsInput (by decide)⟩

/-- Claim C5: for inputs with exactly one SPF record, `totalLookups` is
the sum of the five per-mechanism match counts, the spec's example record
counts 4 lookups, and a lookup-count warning is produced iff the count
exceeds 5 — the moderate warning for 6..8, the high-severity warning
above 8. -/
theorem spf_lookup_budget (answers : List DNSRecord) (r : String)
    (h : spfMatches answers = [r]) :
    totalLookups r = includeCount r + aCount r + mxCount r + ptrCount r + existsCount r ∧
    (analyzeSpf answers).warnings = terminatorWarningList r ++ lookupWarningList r ∧
    (¬ lookupWarningList r = [] ↔ 5 < totalLookups r) ∧
    (5 < totalLookups r → totalLookups r ≤ 8 → lookupWarningList r = [moderateLookupWarningText r]) ∧
    (8 < totalLookups r → lookupWarningList r = [highLookupWarningText r]) ∧
    totalLookups "v=spf1 include:a.com include:b.com a mx ~all" = 4 := by
  refine ⟨rfl, by simp [analyzeSpf, h], ?_, ?_, ?_, by decide⟩
  · rw [lookupWarningList]
    split_ifs with h1 h2 <;> simp <;> omega
  · intro h5 h8
    rw [lookupWarningList, if_neg (by omega), if_pos h5]
  · intro h8
    rw [lookupWarningList, if_pos h8]

/-- Witness for C5 at the spec's example record. -/
theorem spf_lookup_budget_witness :
    spfMatches spfLookupExampleInput = ["v=spf1 include:a.com include:b.com a mx ~all"] ∧
    (analyzeSpf spfLookupExampleInput).warnings =
      terminatorWarningList "v=spf1 include:a.com include:b.com a mx ~all" ++
      lookupWarningList "v=spf1 include:a.com include:b.com a mx ~all" :=
  ⟨by decide,
   (spf_lookup_budget spfLookupExampleInput "v=spf1 include:a.com include:b.com a mx ~all"
     (by decide)).2.1⟩

/-- Claim C8 counterexample: an input with exactly one SPF record ending
in `-all` on which the analysis produces two warnings, not exactly one —
the terminator warning and a lookup-count warning. -/
theorem spf_dash_all_two_warnings_counterexample :
    (spfMatches spfDashAllSixIncludesInput).length = 1 ∧
    "-all".data.isSuffixOf ((spfMatches spfDashAllSixIncludesInput).headD "").data = true ∧
    (analyzeSpf spfDashAllSixIncludesInput).warnings.length = 2 := by
  refine ⟨by decide, by decide, by decide⟩

/-- Claim C8 as amended: for inputs with exactly one SPF record, a record
that ends in `-all`, contains no `~all`, and whose first all-qualifier is
the `-all`, yields exactly one terminator warning, recommending `~all` and
naming `-all` (lookup-count warnings can be produced in addition); a
record ending in `~all` yields no terminator warning. -/
theorem spf_terminator_warning (answers : List DNSRecord) (r : String)
    (h : spfMatches answers = [r]) :
    ("-all".data.isSuffixOf r.data = true → jsIncludes r "~all" = false →
      firstTerminator r = some "-all" →
      terminatorWarningList r = [usesTerminatorWarningText "-all"] ∧
      (analyzeSpf answers).warnings = usesTerminatorWarningText "-all" :: lookupWarningList r) ∧
    ("~all".data.isSuffixOf r.data = true →
      terminatorWarningList r = [] ∧
      (analyzeSpf answers).warnings = lookupWarningList r) := by
  constructor
  · intro _ hni hft
    have hterm : hasTerminator r = true := hasTerminator_of_firstTerminator r "-all" hft
    have hlist : terminatorWarningList r = [usesTerminatorWarningText "-all"] := by
      rw [terminatorWarningList, hterm, hni, hft]
      simp
    exact ⟨hlist, by simp [analyzeSpf, h, hlist]⟩
  · intro hsuf
    have hinc : jsIncludes r "~all" = true := jsIncludes_of_isSuffixOf r "~all" hsuf
    have hterm : hasTerminator r = true := hasTerminator_of_jsIncludes_tilde r hinc
    have hlist : terminatorWarningList r = [] := by
      rw [terminatorWarningList, hterm, hinc]
      simp
    exact ⟨hlist, by simp [analyzeSpf, h, hlist]⟩

/-- Witness for the amended C8 at a concrete `-all` record. -/
theorem spf_terminator_warning_witness :
    terminatorWarningList "v=spf1 include:a.com -all" = [usesTerminatorWarningText "-all"] ∧
    (analyzeSpf spfDashAllSimpleInput).warnings =
      usesTerminatorWarningText "-all" :: lookupWarningList "v=spf1 include:a.com -all" :=
  (spf_terminator_warning spfDashAllSimpleInput "v=spf1 include:a.com -all" (by decide)).1
    (by decide) (by decide) (by decide)

/-- Claim C6 counterexample: a selector answer set that contains a TXT
answer whose unwrapped data carries a `p=` tag — but in second position —
on which the DKIM analysis nevertheless reports no record: only the first
TXT answer is ever inspected. -/
theorem dkim_second_txt_ignored_counterexample :
    (∃ rec ∈ dkimSecondTxtOracle "ms._domainkey.example.com" "TXT",
      rec.type = 16 ∧ jsIncludes (stripQuotes rec.data) "p=" = true) ∧
    (analyzeDkim "example.com" dkimSecondTxtOracle).1.existsb = false ∧
    (analyzeDkim "example.com" dkimSecondTxtOracle).1.record = none := by
  refine ⟨?_, by decide, by decide⟩
  decide

/-- Claim C6 as amended: when the *first* TXT answer of the selector query
unwraps to data containing `v=DKIM1` or a `p=` tag, the DKIM analysis
yields `exists = true`, `isCNAME = false`, and that unwrapped data as the
record. -/
theorem dkim_direct_txt_detection (cleanDomain : String) (oracle : Oracle)
    (t : DNSRecord) (ts : List DNSRecord)
    (ht : (oracle ("ms._domainkey." ++ cleanDomain) "TXT").filter (fun rec => rec.type == 16) =
      t :: ts)
    (hm : (jsIncludes (stripQuotes t.data) "v=DKIM1" || jsIncludes (stripQuotes t.data) "p=") = true) :
    (analyzeDkim cleanDomain oracle).1.existsb = true ∧
    (analyzeDkim cleanDomain oracle).1.isCNAME = false ∧
    (analyzeDkim cleanDomain oracle).1.record = some (stripQuotes t.data) := by
  have hne : oracle ("ms._domainkey." ++ cleanDomain) "TXT" ≠ [] :=
    filter_ne_nil_base _ _ t ts ht
  have hlen : 0 < (oracle ("ms._domainkey." ++ cleanDomain) "TXT").length :=
    List.length_pos.mpr hne
  have hdirect : dkimTxtData (oracle ("ms._domainkey." ++ cleanDomain) "TXT") =
      some (stripQuotes t.data) := by
    rw [dkimTxtData, if_pos hlen, ht]
    simp [hm]
  have hdata : (stripQuotes t.data).data ≠ [] := by
    have hm2 : jsIncludes (stripQuotes t.data) "v=DKIM1" = true ∨
        jsIncludes (stripQuotes t.data) "p=" = true := by
      simpa using hm
    rcases hm2 with h1 | h1
    · exact jsIncludes_ne_nil _ "v=DKIM1" (by decide) h1
    · exact jsIncludes_ne_nil _ "p=" (by decide) h1
  have htru : jsTruthyStr (some (stripQuotes t.data)) = true := by
    simp [jsTruthyStr, hdata]
  refine ⟨?_, ?_, ?_⟩ <;> simp [analyzeDkim, hdirect, htru]

/-- Witness for the amended C6 at a concrete direct-TXT answer set. -/
theorem dkim_direct_txt_detection_witness :
    (analyzeDkim "example.com" dkimDirectTxtOracle).1.existsb = true ∧
    (analyzeDkim "example.com" dkimDirectTxtOracle).1.isCNAME = false ∧
    (analyzeDkim "example.com" dkimDirectTxtOracle).1.record = some "v=DKIM1; p=abc" :=
  dkim_direct_txt_detection "example.com" dkimDirectTxtOracle
    { name := "ms._domainkey.example.com", type := 16, TTL := 300, data := "\"v=DKIM1; p=abc\"" }
    [] (by decide) (by decide)

/-- Claim C7: when the selector lookup resolved no record and returned no
CNAME answer, a TXT answer at the duplicated name
`ms._domainkey.<domain>.<domain>` makes the analysis set
`isDuplicated = true`, `duplicatedLocation` to the probed name, and emit
the auto-appended-domain fix error; an empty probe leaves
`isDuplicated = false` and emits the generic propagation error instead. -/
theorem dkim_duplication_probe (cleanDomain : String) (oracle : Oracle)
    (hcname : (oracle ("ms._domainkey." ++ cleanDomain) "TXT").filter (fun rec => rec.type == 5) = [])
    (hdirect : dkimTxtData (oracle ("ms._domainkey." ++ cleanDomain) "TXT") = none) :
    ((∃ rec ∈ oracle ("ms._domainkey." ++ cleanDomain ++ "." ++ cleanDomain) "TXT",
        rec.type = 16) →
      (analyzeDkim cleanDomain oracle).1.isDuplicated = true ∧
      (analyzeDkim cleanDomain oracle).1.duplicatedLocation =
        some ("ms._domainkey." ++ cleanDomain ++ "." ++ cleanDomain) ∧
      (analyzeDkim cleanDomain oracle).1.errors =
        [dkimDuplicatedErrorText ("ms._domainkey." ++ cleanDomain ++ "." ++ cleanDomain)]) ∧
    (oracle ("ms._domainkey." ++ cleanDomain ++ "." ++ cleanDomain) "TXT" = [] →
      (analyzeDkim cleanDomain oracle).1.isDuplicated = false ∧
      (analyzeDkim cleanDomain oracle).1.errors = [dkimNotFoundErrorText]) := by
  have hc : cnameOf (oracle ("ms._domainkey." ++ cleanDomain) "TXT") = none := by
    rw [cnameOf, hcname]
  constructor
  · rintro ⟨rec, hmem, -⟩
    have hne : oracle ("ms._domainkey." ++ cleanDomain ++ "." ++ cleanDomain) "TXT" ≠ [] :=
      List.ne_nil_of_mem hmem
    have hlen : 0 < (oracle ("ms._domainkey." ++ cleanDomain ++ "." ++ cleanDomain) "TXT").length :=
      List.length_pos.mpr hne
    refine ⟨?_, ?_, ?_⟩ <;> simp [analyzeDkim, hdirect, hc, jsTruthyStr, hlen]
  · intro hempty
    refine ⟨?_, ?_⟩ <;> simp [analyzeDkim, hdirect, hc, jsTruthyStr, hempty]

/-- Witness for C7: the duplicated-name probe answers, so the analysis
reports the domain-duplication diagnosis. -/
theorem dkim_duplication_probe_witness :
    (analyzeDkim "example.com" dkimDuplicatedOracle).1.isDuplicated = true ∧
    (analyzeDkim "example.com" dkimDuplicatedOracle).1.duplicatedLocation =
      some ("ms._domainkey." ++ "example.com" ++ "." ++ "example.com") ∧
    (analyzeDkim "example.com" dkimDuplicatedOracle).1.errors =
      [dkimDuplicatedErrorText ("ms._domainkey." ++ "example.com" ++ "." ++ "example.com")] :=
  (dkim_duplication_probe "example.com" dkimDuplicatedOracle (by decide) (by decide)).1
    (by decide)

theorem jsStartsWith_ne_nil (s pat : String) (hp : pat.data ≠ [])
    (h : jsStartsWith s pat = true) : s.data ≠ [] := by
  rw [jsStartsWith, isPrefixOf_eq_true_iff] at h
  obtain ⟨t, ht⟩ := h
  rw [ht]
  intro h0
  exact hp (List.append_eq_nil.mp h0).1

theorem dmarcMatches_mem_truthy (answers : List DNSRecord) (r : String)
    (h : r ∈ dmarcMatches answers) : jsTruthyStr (some r) = true := by
  rw [dmarcMatches] at h
  have hp := List.of_mem_filter h
  have hne := jsStartsWith_ne_nil r "v=DMARC1" (by decide) (by simpa using hp)
  simp [jsTruthyStr, hne]

/-- Claim C4: with exactly one DMARC match the policy is the first
`p=...` capture of that record (so `v=DMARC1; p=quarantine;` yields
`quarantine`); with two or more matches `hasMultiple = true` and the
policy is absent; the policy is never set unless exactly one match
exists. -/
theorem dmarc_policy_extraction :
    (∀ (rec : String) (answers : List DNSRecord), dmarcMatches answers = [rec] →
      (analyzeDmarc answers).policy = extractPolicy rec) ∧
    extractPolicy "v=DMARC1; p=quarantine;" = some "quarantine" ∧
    (∀ answers : List DNSRecord, 2 ≤ (dmarcMatches answers).length →
      (analyzeDmarc answers).hasMultiple = true ∧ (analyzeDmarc answers).policy = none) ∧
    (∀ answers : List DNSRecord, (analyzeDmarc answers).policy.isSome = true →
      (dmarcMatches answers).length = 1) := by
  refine ⟨?_, by decide, ?_, ?_⟩
  · intro rec answers h
    have htru : jsTruthyStr (some rec) = true :=
      dmarcMatches_mem_truthy answers rec (h ▸ List.mem_cons_self rec [])
    simp [analyzeDmarc, h, htru]
  · intro answers h
    rcases hm : dmarcMatches answers with _ | ⟨a, rest⟩
    · rw [hm] at h
      simp at h
    · rcases rest with _ | ⟨b, t⟩
      · rw [hm] at h
        simp at h
      · constructor <;> simp [analyzeDmarc, hm]
  · intro answers hp
    rcases hm : dmarcMatches answers with _ | ⟨a, rest⟩
    · simp [analyzeDmarc, hm, jsTruthyStr] at hp
    · rcases rest with _ | ⟨b, t⟩
      · simp [hm]
      · simp [analyzeDmarc, hm] at hp

/-- Witness for C4 at one concrete quarantine record. -/
theorem dmarc_policy_extraction_witness :
    (analyzeDmarc dmarcQuarantineInput).policy = some "quarantine" := by
  rw [dmarc_policy_extraction.1 "v=DMARC1; p=quarantine;" dmarcQuarantineInput (by decide)]
  exact dmarc_policy_extraction.2.1

/-- Claim C10: whenever the DMARC analysis reports multiple records,
`exists` is still true, `record` is the first match in resolver order and
is present, and `policy` is absent; `record` is present whenever at least
one match exists; and the missing-DMARC error is emitted exactly when no
record matches. -/
theorem dmarc_multiple_keeps_record (answers : List DNSRecord) :
    ((analyzeDmarc answers).hasMultiple = true →
      (analyzeDmarc answers).existsb = true ∧
      (analyzeDmarc answers).record = (dmarcMatches answers).head? ∧
      (analyzeDmarc answers).record.isSome = true ∧
      (analyzeDmarc answers).policy = none) ∧
    (dmarcMatches answers ≠ [] → (analyzeDmarc answers).record.isSome = true) ∧
    (dmarcMatches answers = [] → (analyzeDmarc answers).errors = [noDmarcErrorText]) ∧
    (dmarcMatches answers ≠ [] →
      (analyzeDmarc answers).errors =
        if 1 < (dmarcMatches answers).length then
          [multipleDmarcErrorText (dmarcMatches answers).length]
        else []) := by
  refine ⟨?_, ?_, ?_, ?_⟩
  · intro hmul
    rcases hm : dmarcMatches answers with _ | ⟨a, rest⟩
    · simp [analyzeDmarc, hm] at hmul
    · rcases rest with _ | ⟨b, t⟩
      · simp [analyzeDmarc, hm] at hmul
      · refine ⟨?_, ?_, ?_, ?_⟩ <;> simp [analyzeDmarc, hm]
  · intro hne
    rcases hm : dmarcMatches answers with _ | ⟨a, rest⟩
    · exact absurd hm hne
    · simp [analyzeDmarc, hm]
  · intro hnil
    simp [analyzeDmarc, hnil, jsTruthyStr]
  · intro hne
    rcases hm : dmarcMatches answers with _ | ⟨a, rest⟩
    · exact absurd hm hne
    · have htru : jsTruthyStr (some a) = true :=
        dmarcMatches_mem_truthy answers a (hm ▸ List.mem_cons_self a rest)
      rcases rest with _ | ⟨b, t⟩
      · simp [analyzeDmarc, hm, htru]
      · simp [analyzeDmarc, hm, htru]

/-- Witness for C10 at a concrete two-record answer set. -/
theorem dmarc_multiple_keeps_record_witness :
    (analyzeDmarc dmarcTwoRecordsInput).existsb = true ∧
    (analyzeDmarc dmarcTwoRecordsInput).record = (dmarcMatches dmarcTwoRecordsInput).head? ∧
    (analyzeDmarc dmarcTwoRecordsInput).record.isSome = true ∧
    (analyzeDmarc dmarcTwoRecordsInput).policy = none :=
  (dmarc_multiple_keeps_record dmarcTwoRecordsInput).1 (by decide)

/-- Claim C9 counterexample: the input `https://` is empty after full
normalization (trim, lowercase, scheme strip, trailing-slash strip), yet
`analyzeDomain` does not fail with the invalid-input error — it proceeds
and issues resolver lookups with the empty normalized domain. -/
theorem analyze_invalid_input_counterexample :
    normalizeDomain "https://" = "" ∧
    (analyzeDomainRun "https://" false emptyOracle).1 ≠ AnalyzeOutcome.invalidInput ∧
    (analyzeDomainRun "https://" false emptyOracle).2 ≠ [] := by
  refine ⟨by decide, by decide, by decide⟩

/-- Claim C9 as amended: `analyzeDomain` fails with the invalid-input
error exactly when the raw input is empty after `trim()` alone (the check
runs before the rest of the normalization), and in that case no resolver
lookup is issued. -/
theorem analyze_invalid_input_iff_trim_empty (domain : String) (oracle : Oracle) :
    ((analyzeDomainRun domain false oracle).1 = AnalyzeOutcome.invalidInput ↔
      jsTrim domain = "") ∧
    (jsTrim domain = "" → (analyzeDomainRun domain false oracle).2 = []) := by
  refine ⟨⟨?_, ?_⟩, ?_⟩
  · intro h
    by_contra hne
    rw [analyzeDomainRun, if_neg hne] at h
    simp at h
  · intro h
    rw [analyzeDomainRun, if_pos h]
  · intro h
    rw [analyzeDomainRun, if_pos h]

/-- Witness for the amended C9 at an all-whitespace input. -/
theorem analyze_invalid_input_iff_trim_empty_witness :
    (analyzeDomainRun "   " false emptyOracle).1 = AnalyzeOutcome.invalidInput ∧
    (analyzeDomainRun "   " false emptyOracle).2 = [] :=
  ⟨(analyze_invalid_input_iff_trim_empty "   " emptyOracle).1.mpr (by decide),
   (analyze_invalid_input_iff_trim_empty "   " emptyOracle).2 (by decide)⟩

/-- Claim C2, code-bug evidence: on a fresh session a single
`analyzeDomain` invocation — necessarily the most recently started
request — completes, and yet its result is never committed.  The commit
guard compares the fresh `Date.now()` identifier `currentRequestId`
against the closure's `requestId`, which still holds the value from the
render that created the function (0 here, since `setRequestId` cannot
update an already-captured binding), so the guard fails, `analysis` stays
`none` and `loading` is never cleared — even though the live `requestId`
records this very invocation as the current one. -/
theorem analyzeDomain_stale_closure_discards_result :
    (runAnalyzeDomain freshSession 1700000000000 emptyOracle freshSession).analysis = none ∧
    (runAnalyzeDomain freshSession 1700000000000 emptyOracle freshSession).loading = true ∧
    (runAnalyzeDomain freshSession 1700000000000 emptyOracle freshSession).requestId =
      1700000000000 := by
  refine ⟨by decide, by decide, by decide⟩

theorem string_data_append (s t : String) : (s ++ t).data = s.data ++ t.data := rfl

/-- Claim C1 counterexample: two calls of `generateFullReport` on the very
same `AnalysisResult` (and the same displayed domain) return different
strings when the wall clock moved between the calls — the report embeds
`new Date().toLocaleString()` at render time. -/
theorem generateFullReport_not_pure_counterexample :
    generateFullReport (computeAnalysis "example.com" emptyOracle) "example.com"
      "1/1/2024, 12:00:00 PM" ≠
    generateFullReport (computeAnalysis "example.com" emptyOracle) "example.com"
      "1/1/2024, 12:00:01 PM" := by
  decide

/-- Claim C1 as amended: `generateFullReport` is a deterministic,
side-effect-free function of the `AnalysisResult`, the displayed domain,
and the render-time timestamp — for a fixed result and domain, two calls
return byte-identical strings exactly when their rendered timestamps
agree (so byte-identity across calls holds only at a fixed render time,
not for the analysis result alone). -/
theorem generateFullReport_deterministic (a : AnalysisResult) (domain t1 t2 : String) :
    generateFullReport a domain t1 = generateFullReport a domain t2 ↔ t1 = t2 := by
  constructor
  · intro h
    have hd := congrArg String.data h
    simp only [generateFullReport, string_data_append, List.append_assoc] at hd
    have h1 := List.append_cancel_left hd
    have h2 := List.append_cancel_left h1
    have h3 := List.append_cancel_left h2
    have h4 := List.append_cancel_left h3
    have h5 := List.append_cancel_left h4
    exact congrArg String.mk (List.append_cancel_right h5)
  · intro h
    rw [h]
